import Mathlib

/-!
Verification development for the x509 package of pki.io.

The Go source (src/x509/ca.go, src/x509/certificate.go) is embedded
shallowly: each Go struct becomes a Lean structure, each method becomes a
pure Lean function that takes the receiver's data and returns the updated
data together with the Go error value (`Option String`, `none` meaning a
nil error).  External collaborators excluded by the specification (key-pair
generation, PEM decode, `x509.CreateCertificate`, the time-ordered
identifier source, `time.Now`) are modelled as fields of a `CryptoEnv`
record, so every theorem quantifies over their behaviour.
-/

/-- The dn-scope sub-object of a CA body (src/x509/ca.go, `CAData.Body.DNScope`):
seven X.509 distinguished-name fields, all strings. -/
structure DNScope where
  country : String
  organization : String
  organizationalUnit : String
  locality : String
  province : String
  streetAddress : String
  postalCode : String
deriving DecidableEq

/-- The body of a CA document (src/x509/ca.go, `CAData.Body`). -/
structure CABody where
  id : String
  name : String
  certificate : String
  privateKey : String
  dnScope : DNScope
deriving DecidableEq

/-- The full CA document data (src/x509/ca.go, `CAData`).  The Go field
`Type` is rendered `docType` because `Type` is reserved in Lean. -/
structure CAData where
  scope : String
  version : Int
  docType : String
  options : String
  body : CABody
deriving DecidableEq

/-- The body of a Certificate document (src/x509/certificate.go,
`CertificateData.Body`): like a CA body but with no dn-scope. -/
structure CertificateBody where
  id : String
  name : String
  certificate : String
  privateKey : String
deriving DecidableEq

/-- The full Certificate document data (src/x509/certificate.go,
`CertificateData`). -/
structure CertificateData where
  scope : String
  version : Int
  docType : String
  options : String
  body : CertificateBody
deriving DecidableEq

/-- Modelled from the spec: the CSR type is referenced by `CA.Sign`
(src/x509/ca.go) but its file is not part of the provided source.  Per the
spec (§3, §4.5) a CSR body holds id, name and a PEM public key and never
carries private material. -/
structure CSRBody where
  id : String
  name : String
  publicKey : String
deriving DecidableEq

/-- Modelled from the spec: full CSR document data, following the common
document pattern (§3). -/
structure CSRData where
  scope : String
  version : Int
  docType : String
  options : String
  body : CSRBody
deriving DecidableEq

/-- An RSA public key, kept abstract: the model never inspects key
material, it only moves it between collaborators. -/
structure RSAPublicKey where
  n : Nat
  e : Nat
deriving DecidableEq

/-- An RSA private key (Go `rsa.PrivateKey`): carries its public key, as
`privateKey.PublicKey` does in Go. -/
structure RSAPrivateKey where
  publicKey : RSAPublicKey
  d : Nat
deriving DecidableEq

/-- The extended key usages used by the source (Go `x509.ExtKeyUsage`). -/
inductive ExtKeyUsage where
  | clientAuth
  | serverAuth
deriving DecidableEq

/-- Go `x509.KeyUsageDigitalSignature` (= 1). -/
def keyUsageDigitalSignature : Nat := 1

/-- Go `x509.KeyUsageCertSign` (= 32). -/
def keyUsageCertSign : Nat := 32

/-- Go `pkix.Name`, restricted to the fields the source touches.  Each
list-valued field starts empty and is set to a one-element list when the
corresponding dn-scope entry is non-empty. -/
structure PkixName where
  commonName : String
  country : List String
  organization : List String
  organizationalUnit : List String
  locality : List String
  province : List String
  streetAddress : List String
  postalCode : List String
deriving DecidableEq

/-- The zero value of `pkix.Name` before any field is assigned
(`subject := new(pkix.Name)`). -/
def PkixName.empty : PkixName :=
  { commonName := ""
    country := []
    organization := []
    organizationalUnit := []
    locality := []
    province := []
    streetAddress := []
    postalCode := [] }

/-- Go `x509.Certificate`, restricted to the template fields the source
sets; decoded parent certificates are modelled with the same record.
Times are modelled as integers. -/
structure X509Certificate where
  isCA : Bool
  basicConstraintsValid : Bool
  subjectKeyId : List Nat
  serialNumber : Int
  subject : PkixName
  notBefore : Int
  notAfter : Int
  extKeyUsage : List ExtKeyUsage
  keyUsage : Nat
deriving DecidableEq

/-- The external collaborators, exactly those the spec excludes from the
core (§1, §6): key generation, PEM primitives, `x509.CreateCertificate`,
the time-ordered identifier source and the clock.  Every theorem about the
embedded operations quantifies over a `CryptoEnv`. -/
structure CryptoEnv where
  /-- result of `uuid.TimeOrderedUUID()` for the call under study -/
  timeOrderedUUID : String
  /-- result of `crypto.GenerateRSAKey()` for the call under study -/
  generateRSAKey : RSAPrivateKey
  /-- `PemDecodeX509Certificate` -/
  pemDecodeX509Certificate : String → Except String X509Certificate
  /-- `crypto.PemDecodeRSAPrivate` -/
  pemDecodeRSAPrivate : String → Except String RSAPrivateKey
  /-- Modelled from the spec: the public-key decode used by `CSR.PublicKey` -/
  pemDecodePublicKey : String → Except String RSAPublicKey
  /-- `crypto.PemEncodeRSAPrivate` -/
  pemEncodeRSAPrivate : RSAPrivateKey → String
  /-- base64 body encoder inside the PEM armor -/
  base64Encode : List Nat → String
  /-- `x509.CreateCertificate rand template parent publicKey signingKey`;
  the parent and the signing key are nilable pointers in Go, hence
  `Option` here -/
  createCertificate : X509Certificate → Option X509Certificate →
      RSAPublicKey → Option RSAPrivateKey → Except String (List Nat)
  /-- `time.Now()` -/
  now : Int
  /-- `time.Time.AddDate years months days` -/
  addDate : Int → Int → Int → Int → Int

/-- Modelled from the spec: `PemEncodeX509CertificateDER` is repository
code not included in the provided source; per §6 it produces a standard
begin/end delimited base64 block, so its output always carries the armor
delimiters around a collaborator-chosen base64 body. -/
def PemEncodeX509CertificateDER (env : CryptoEnv) (der : List Nat) : String :=
  "-----BEGIN CERTIFICATE-----\n" ++ env.base64Encode der ++
    "\n-----END CERTIFICATE-----\n"

/-- Whether a character is an ASCII hexadecimal digit. -/
def isHexDigit (c : Char) : Bool :=
  (Char.ofNat 48 ≤ c && c ≤ Char.ofNat 57) ||
    (Char.ofNat 97 ≤ c && c ≤ Char.ofNat 102) ||
    (Char.ofNat 65 ≤ c && c ≤ Char.ofNat 70)

/-- Numeric value of a hexadecimal digit character. -/
def hexDigitVal (c : Char) : Nat :=
  if Char.ofNat 48 ≤ c && c ≤ Char.ofNat 57 then c.toNat - 48
  else if Char.ofNat 97 ≤ c && c ≤ Char.ofNat 102 then c.toNat - 87
  else c.toNat - 55

/-- Value of a hexadecimal digit string, most significant digit first. -/
def hexNat (cs : List Char) : Nat :=
  cs.foldl (fun a c => 16 * a + hexDigitVal c) 0

/-- Go `strings.Replace(s, "-", "", -1)`: delete every dash. -/
def removeDashes (s : String) : String :=
  String.mk (s.data.filter (fun c => c ≠ '-'))

/-- Embedding of `fmt.Sscanf(clean, "%x", i)` with `i` a `*big.Int`
(standard-library collaborator): an optional sign followed by at least one
hexadecimal digit; scanning stops at the first non-digit and trailing
input is ignored, `none` when no digit can be read. -/
def sscanHexBigInt (s : String) : Option Int :=
  match s.data with
  | [] => none
  | c :: rest =>
    if c = '-' then
      match rest.takeWhile isHexDigit with
      | [] => none
      | ds => some (-(hexNat ds : Int))
    else if c = '+' then
      match rest.takeWhile isHexDigit with
      | [] => none
      | ds => some (hexNat ds : Int)
    else
      match (c :: rest).takeWhile isHexDigit with
      | [] => none
      | ds => some (hexNat ds : Int)

/-- Embedding of `NewSerial` (src/x509/ca.go lines 161-171).  The Go
function calls `uuid.TimeOrderedUUID()` itself; the identifier string is
passed here explicitly since that source is an external collaborator. -/
def NewSerial (uuid : String) : Except String Int :=
  let clean := removeDashes uuid
  match sscanHexBigInt clean with
  | none => Except.error "Could not scan UUID to int: syntax error scanning number"
  | some i => Except.ok i

/-- The format of the time-ordered identifier source (spec §6): a
non-empty string of hexadecimal digits and dash separators containing at
least one digit. -/
def isTimeOrderedIdentifier (s : String) : Bool :=
  s.data.all (fun c => isHexDigit c || c = '-') && s.data.any isHexDigit

/-- The dn-scope override of `CA.GenerateSub` (src/x509/ca.go lines
211-235): for each of the seven fields, the parent's value wins whenever
it is non-empty. -/
def dnScopeInherit (child parent : DNScope) : DNScope :=
  { country := if parent.country ≠ "" then parent.country else child.country
    organization :=
      if parent.organization ≠ "" then parent.organization else child.organization
    organizationalUnit :=
      if parent.organizationalUnit ≠ "" then parent.organizationalUnit
      else child.organizationalUnit
    locality := if parent.locality ≠ "" then parent.locality else child.locality
    province := if parent.province ≠ "" then parent.province else child.province
    streetAddress :=
      if parent.streetAddress ≠ "" then parent.streetAddress else child.streetAddress
    postalCode :=
      if parent.postalCode ≠ "" then parent.postalCode else child.postalCode }

/-- The subject construction shared verbatim by `GenerateSub` (lines
237-261) and `Sign` (lines 330-352): common name plus each dn-scope field
as a singleton list when non-empty. -/
def subjectFromDNScope (dn : DNScope) (commonName : String) : PkixName :=
  { PkixName.empty with
    commonName := commonName
    country := if dn.country ≠ "" then [dn.country] else []
    organization := if dn.organization ≠ "" then [dn.organization] else []
    organizationalUnit :=
      if dn.organizationalUnit ≠ "" then [dn.organizationalUnit] else []
    locality := if dn.locality ≠ "" then [dn.locality] else []
    province := if dn.province ≠ "" then [dn.province] else []
    streetAddress := if dn.streetAddress ≠ "" then [dn.streetAddress] else []
    postalCode := if dn.postalCode ≠ "" then [dn.postalCode] else [] }

/-- The parent argument of `CA.GenerateSub`, a Go `interface{}` value: nil,
a `*CA`, or a value of any other dynamic type (carrying the type name that
`%T` would print). -/
inductive CAParentArg where
  | noParent
  | caParent (p : CAData)
  | otherType (typeName : String)

/-- The parent argument of `Certificate.Generate`: nil, a `*Certificate`,
or a value of any other dynamic type. -/
inductive CertParentArg where
  | noParent
  | certParent (p : CertificateData)
  | otherType (typeName : String)

/-- Embedding of the method `(ca *CA) Certificate()` (src/x509/ca.go lines
316-318): decode the stored certificate PEM. -/
def CA.Certificate (env : CryptoEnv) (ca : CAData) : Except String X509Certificate :=
  env.pemDecodeX509Certificate ca.body.certificate

/-- Embedding of the method `(ca *CA) PrivateKey()` (src/x509/ca.go lines
320-326): decode the stored private-key PEM, wrapping the failure. -/
def CA.PrivateKey (env : CryptoEnv) (ca : CAData) : Except String RSAPrivateKey :=
  match env.pemDecodeRSAPrivate ca.body.privateKey with
  | Except.error e => Except.error ("Could not decode rsa private key: " ++ e)
  | Except.ok k => Except.ok k

/-- Embedding of `(certificate *Certificate) Certificate()`
(src/x509/certificate.go lines 182-184). -/
def Certificate.Certificate (env : CryptoEnv) (c : CertificateData) :
    Except String X509Certificate :=
  env.pemDecodeX509Certificate c.body.certificate

/-- Embedding of `(certificate *Certificate) PrivateKey()`
(src/x509/certificate.go lines 186-192). -/
def Certificate.PrivateKey (env : CryptoEnv) (c : CertificateData) :
    Except String RSAPrivateKey :=
  match env.pemDecodeRSAPrivate c.body.privateKey with
  | Except.error e => Except.error ("Could not decode rsa private key: " ++ e)
  | Except.ok k => Except.ok k

/-- Modelled from the spec: `CSR.PublicKey` lives in the repository's csr
file, which is not part of the provided source; per §4.5 it decodes the
stored PEM public key. -/
def CSR.PublicKey (env : CryptoEnv) (csr : CSRData) : Except String RSAPublicKey :=
  env.pemDecodePublicKey csr.body.publicKey

/-- The certificate template built by `CA.GenerateSub` (src/x509/ca.go
lines 268-279). -/
def caTemplate (serial : Int) (subject : PkixName) (notBefore notAfter : Int) :
    X509Certificate :=
  { isCA := true
    basicConstraintsValid := true
    subjectKeyId := [1, 2, 3]
    serialNumber := serial
    subject := subject
    notBefore := notBefore
    notAfter := notAfter
    extKeyUsage := [ExtKeyUsage.clientAuth, ExtKeyUsage.serverAuth]
    keyUsage := keyUsageDigitalSignature ||| keyUsageCertSign }

/-- The non-CA certificate template built by `CA.Sign` (src/x509/ca.go
lines 358-369): validity from `time.Now()` to `Now().AddDate(5, 5, 5)`. -/
def signTemplate (env : CryptoEnv) (serial : Int) (subject : PkixName) :
    X509Certificate :=
  { isCA := false
    basicConstraintsValid := true
    subjectKeyId := [1, 2, 3]
    serialNumber := serial
    subject := subject
    notBefore := env.now
    notAfter := env.addDate env.now 5 5 5
    extKeyUsage := [ExtKeyUsage.clientAuth, ExtKeyUsage.serverAuth]
    keyUsage := keyUsageDigitalSignature ||| keyUsageCertSign }

/-- The fixed subject built by `Certificate.Generate`
(src/x509/certificate.go lines 130-133). -/
def certGenSubject : PkixName :=
  { PkixName.empty with
    country := ["Earth"]
    organization := ["Mother Nature"] }

/-- The non-CA certificate template built by `Certificate.Generate`
(src/x509/certificate.go lines 135-146): fixed serial 1234 and the fixed
subject. -/
def certGenTemplate (notBefore notAfter : Int) : X509Certificate :=
  { isCA := false
    basicConstraintsValid := true
    subjectKeyId := [1, 2, 3]
    serialNumber := 1234
    subject := certGenSubject
    notBefore := notBefore
    notAfter := notAfter
    extKeyUsage := [ExtKeyUsage.clientAuth, ExtKeyUsage.serverAuth]
    keyUsage := keyUsageDigitalSignature ||| keyUsageCertSign }

/-- The parent/signing-key selection switch of `CA.GenerateSub`
(src/x509/ca.go lines 286-302): a `*CA` parent supplies its decoded
certificate and key (each failure wrapped), nil means self-signed, any
other type is rejected. -/
def caParentAndKey (env : CryptoEnv) (template : X509Certificate)
    (privateKey : RSAPrivateKey) :
    CAParentArg → Except String (X509Certificate × RSAPrivateKey)
  | CAParentArg.caParent p =>
    match CA.Certificate env p with
    | Except.error e => Except.error ("Could not get certificate: " ++ e)
    | Except.ok parent =>
      match CA.PrivateKey env p with
      | Except.error e => Except.error ("Could not get private key: " ++ e)
      | Except.ok signingKey => Except.ok (parent, signingKey)
  | CAParentArg.noParent => Except.ok (template, privateKey)
  | CAParentArg.otherType t => Except.error ("Invalid parent type: " ++ t)

/-- The dn-scope override switch at the top of `CA.GenerateSub`
(src/x509/ca.go lines 211-235): only a `*CA` parent triggers the seven
field overrides. -/
def applyDNInherit (ca : CAData) : CAParentArg → CAData
  | CAParentArg.caParent p =>
    { ca with body :=
      { ca.body with dnScope := dnScopeInherit ca.body.dnScope p.body.dnScope } }
  | _ => ca

/-- Embedding of `(ca *CA) GenerateSub(parentCA, notBefore, notAfter)`
(src/x509/ca.go lines 206-314).  Returns the receiver's data after the
call together with the Go error (`none` = nil).  Step order follows the
source: dn-scope override, subject, serial, template, key generation,
parent switch, certificate creation, field writes. -/
def CA.GenerateSub (env : CryptoEnv) (ca0 : CAData) (parentCA : CAParentArg)
    (notBefore notAfter : Int) : CAData × Option String :=
  let ca := applyDNInherit ca0 parentCA
  let subject := subjectFromDNScope ca.body.dnScope ca.body.name
  match NewSerial env.timeOrderedUUID with
  | Except.error e => (ca, some ("Could not create serial: " ++ e))
  | Except.ok serial =>
    let template := caTemplate serial subject notBefore notAfter
    let privateKey := env.generateRSAKey
    let publicKey := privateKey.publicKey
    match caParentAndKey env template privateKey parentCA with
    | Except.error e => (ca, some e)
    | Except.ok pk =>
      match env.createCertificate template (some pk.1) publicKey (some pk.2) with
      | Except.error e => (ca, some ("Could not create certificate: " ++ e))
      | Except.ok der =>
        ({ ca with body :=
          { ca.body with
            id := toString serial
            certificate := PemEncodeX509CertificateDER env der
            privateKey := env.pemEncodeRSAPrivate privateKey } }, none)

/-- Embedding of `(ca *CA) GenerateRoot(notBefore, notAfter)`
(src/x509/ca.go lines 202-204): delegates to `GenerateSub` with nil
parent. -/
def CA.GenerateRoot (env : CryptoEnv) (ca : CAData) (notBefore notAfter : Int) :
    CAData × Option String :=
  CA.GenerateSub env ca CAParentArg.noParent notBefore notAfter

/-- The default Certificate document data, parsed from the
`CertificateDefault` JSON constant (src/x509/certificate.go lines 15-26);
`NewCertificate(nil)` loads it (document-layer loading of the default
template is modelled from the spec, §4.1). -/
def certificateDefaultData : CertificateData :=
  { scope := "pki.io"
    version := 1
    docType := "certificate-document"
    options := ""
    body := { id := "", name := "", certificate := "", privateKey := "" } }

/-- Embedding of `(ca *CA) Sign(csr)` (src/x509/ca.go lines 328-390).
Returns the Go pair (new Certificate data or error) together with the
receiver's and the CSR's data after the call; the source contains no write
to either, which the translation makes explicit by threading them through.
Note lines 370 and 375 of the source: the errors of `ca.Certificate()` and
`ca.PrivateKey()` are discarded with `_`, so a failed decode flows into
`x509.CreateCertificate` as a nil pointer (`none` here) instead of
aborting. -/
def CA.Sign (env : CryptoEnv) (ca : CAData) (csr : CSRData) :
    Except String CertificateData × CAData × CSRData :=
  let subject := subjectFromDNScope ca.body.dnScope csr.body.name
  match NewSerial env.timeOrderedUUID with
  | Except.error e => (Except.error ("Could not create serial: " ++ e), ca, csr)
  | Except.ok serial =>
    let template := signTemplate env serial subject
    let parent : Option X509Certificate := (CA.Certificate env ca).toOption
    match CSR.PublicKey env csr with
    | Except.error e =>
      (Except.error ("Could not get public key from CSR: " ++ e), ca, csr)
    | Except.ok csrPublicKey =>
      let signingKey : Option RSAPrivateKey := (CA.PrivateKey env ca).toOption
      match env.createCertificate template parent csrPublicKey signingKey with
      | Except.error e =>
        (Except.error ("Could not create certificate der: " ++ e), ca, csr)
      | Except.ok der =>
        let cert := certificateDefaultData
        (Except.ok { cert with body :=
          { cert.body with
            id := csr.body.id
            name := csr.body.name
            certificate := PemEncodeX509CertificateDER env der } }, ca, csr)

/-- The parent/signing-key selection switch of `Certificate.Generate`
(src/x509/certificate.go lines 154-170), identical in shape to the CA
one but typed over `*Certificate`. -/
def certParentAndKey (env : CryptoEnv) (template : X509Certificate)
    (privateKey : RSAPrivateKey) :
    CertParentArg → Except String (X509Certificate × RSAPrivateKey)
  | CertParentArg.certParent p =>
    match Certificate.Certificate env p with
    | Except.error e => Except.error ("Could not get certificate: " ++ e)
    | Except.ok parent =>
      match Certificate.PrivateKey env p with
      | Except.error e => Except.error ("Could not get private key: " ++ e)
      | Except.ok signingKey => Except.ok (parent, signingKey)
  | CertParentArg.noParent => Except.ok (template, privateKey)
  | CertParentArg.otherType t => Except.error ("Invalid parent type: " ++ t)

/-- Embedding of `(certificate *Certificate) Generate(parentCertificate,
notBefore, notAfter)` (src/x509/certificate.go lines 126-180): fixed
subject and serial, fresh key, parent switch, certificate creation, then
the two field writes. -/
def Certificate.Generate (env : CryptoEnv) (c : CertificateData)
    (parentCertificate : CertParentArg) (notBefore notAfter : Int) :
    CertificateData × Option String :=
  let template := certGenTemplate notBefore notAfter
  let privateKey := env.generateRSAKey
  let publicKey := privateKey.publicKey
  match certParentAndKey env template privateKey parentCertificate with
  | Except.error e => (c, some e)
  | Except.ok pk =>
    match env.createCertificate template (some pk.1) publicKey (some pk.2) with
    | Except.error e => (c, some ("Could not create certificate: " ++ e))
    | Except.ok der =>
      ({ c with body :=
        { c.body with
          certificate := PemEncodeX509CertificateDER env der
          privateKey := env.pemEncodeRSAPrivate privateKey } }, none)

/-- Modelled from the spec: the document layer (`document.Document`,
`FromJson`, `ToJson`) is repository code not included in the provided
source.  The transport form (§6) is a structured object; it is modelled
as a JSON value tree, the raw-string encoding being the standard
library's concern. -/
inductive Json where
  | null
  | boolVal (b : Bool)
  | num (n : Int)
  | str (s : String)
  | arr (xs : List Json)
  | obj (fields : List (String × Json))

/-- Find the value stored under a key in a JSON object field list. -/
def lookupKey (k : String) : List (String × Json) → Option Json
  | [] => none
  | kv :: rest => if kv.1 = k then some kv.2 else lookupKey k rest

/-- Read a string-typed field, failing on absence or any other type. -/
def getStr (fs : List (String × Json)) (k : String) : Option String :=
  match lookupKey k fs with
  | some (Json.str s) => some s
  | _ => none

/-- Read an integer-typed field, failing on absence or any other type. -/
def getInt (fs : List (String × Json)) (k : String) : Option Int :=
  match lookupKey k fs with
  | some (Json.num n) => some n
  | _ => none

/-- The keys the CA schema allows at the top level (src/x509/ca.go,
`CASchema`). -/
def caTopKeys : List String := ["scope", "version", "type", "options", "body"]

/-- The keys the CA schema allows in `body`. -/
def caBodyKeys : List String :=
  ["id", "name", "certificate", "private-key", "dn-scope"]

/-- The keys the CA schema allows in `dn-scope`. -/
def dnScopeKeys : List String :=
  ["country", "organization", "organizational-unit", "locality", "province",
   "street-address", "postal-code"]

/-- Serialization of a dn-scope to its transport object, keys as in the
Go json tags. -/
def dnScopeToJson (d : DNScope) : Json :=
  Json.obj
    [("country", Json.str d.country),
     ("organization", Json.str d.organization),
     ("organizational-unit", Json.str d.organizationalUnit),
     ("locality", Json.str d.locality),
     ("province", Json.str d.province),
     ("street-address", Json.str d.streetAddress),
     ("postal-code", Json.str d.postalCode)]

/-- Serialization of a full CA document to its transport object, keys as
in the Go json tags; this is what `Dump` (src/x509/ca.go lines 194-200)
produces via `ToJson`. -/
def caDataToJson (d : CAData) : Json :=
  Json.obj
    [("scope", Json.str d.scope),
     ("version", Json.num d.version),
     ("type", Json.str d.docType),
     ("options", Json.str d.options),
     ("body", Json.obj
       [("id", Json.str d.body.id),
        ("name", Json.str d.body.name),
        ("certificate", Json.str d.body.certificate),
        ("private-key", Json.str d.body.privateKey),
        ("dn-scope", dnScopeToJson d.body.dnScope)])]

/-- Parse and schema-validate a dn-scope object: every key must be an
allowed one (`additionalProperties: false`) and each of the seven
required fields must be present with string type. -/
def dnScopeFromJson (j : Json) : Option DNScope :=
  match j with
  | Json.obj fs =>
    if fs.all (fun kv => dnScopeKeys.contains kv.1) then
      match getStr fs "country", getStr fs "organization",
          getStr fs "organizational-unit", getStr fs "locality",
          getStr fs "province", getStr fs "street-address",
          getStr fs "postal-code" with
      | some c, some o, some ou, some l, some pr, some sa, some pc =>
        some ⟨c, o, ou, l, pr, sa, pc⟩
      | _, _, _, _, _, _, _ => none
    else none
  | _ => none

/-- Parse and schema-validate a CA body object. -/
def caBodyFromJson (j : Json) : Option CABody :=
  match j with
  | Json.obj fs =>
    if fs.all (fun kv => caBodyKeys.contains kv.1) then
      match getStr fs "id", getStr fs "name", getStr fs "certificate",
          getStr fs "private-key", lookupKey "dn-scope" fs with
      | some i, some n, some c, some p, some dnj =>
        match dnScopeFromJson dnj with
        | some dn => some ⟨i, n, c, p, dn⟩
        | none => none
      | _, _, _, _, _ => none
    else none
  | _ => none

/-- Modelled from the spec: parse and schema-validate a full CA document
(§4.1 `Load`): reject unknown keys, require every field with its declared
type, and produce the typed body only on success. -/
def caDataFromJson (j : Json) : Option CAData :=
  match j with
  | Json.obj fs =>
    if fs.all (fun kv => caTopKeys.contains kv.1) then
      match getStr fs "scope", getInt fs "version", getStr fs "type",
          getStr fs "options", lookupKey "body" fs with
      | some s, some v, some t, some o, some bj =>
        match caBodyFromJson bj with
        | some b => some ⟨s, v, t, o, b⟩
        | none => none
      | _, _, _, _, _ => none
    else none
  | _ => none

/-- Embedding of `(ca *CA) Dump()` (src/x509/ca.go lines 194-200) at the
transport-object level: serialize the typed data. -/
def CADump (d : CAData) : Json :=
  caDataToJson d

/-- Embedding of `(ca *CA) Load(jsonString)` (src/x509/ca.go lines
184-192) at the transport-object level: parse and validate, wrapping the
failure as the source does; on success the fresh document's data is the
parsed body. -/
def CALoad (j : Json) : Except String CAData :=
  match caDataFromJson j with
  | none => Except.error "Could not load CA JSON: validation error"
  | some d => Except.ok d

/-- A concrete RSA key used by the concrete environments below. -/
def sampleKey : RSAPrivateKey := ⟨⟨77, 3⟩, 13⟩

/-- A concrete collaborator environment on which every operation succeeds:
the PEM decoders accept exactly the canonical encoded forms. -/
def envOk : CryptoEnv :=
  { timeOrderedUUID := "0123-4567-89ab-cdef"
    generateRSAKey := sampleKey
    pemDecodeX509Certificate := fun s =>
      if s = "CERTPEM" then Except.ok (caTemplate 7 PkixName.empty 0 1)
      else Except.error "not a certificate"
    pemDecodeRSAPrivate := fun s =>
      if s = "KEYPEM" then Except.ok sampleKey else Except.error "not a key"
    pemDecodePublicKey := fun s =>
      if s = "PUBPEM" then Except.ok ⟨77, 3⟩ else Except.error "not a public key"
    pemEncodeRSAPrivate := fun _ => "KEYPEM"
    base64Encode := fun _ => "QUJD"
    createCertificate := fun _ _ _ _ => Except.ok [1, 2]
    now := 100
    addDate := fun t y m d => t + 31536000 * y + 2592000 * m + 86400 * d }

/-- A concrete collaborator environment on which every decode and the
certificate creation fail. -/
def envFail : CryptoEnv :=
  { envOk with
    pemDecodeX509Certificate := fun _ => Except.error "bad pem"
    pemDecodeRSAPrivate := fun _ => Except.error "bad pem"
    pemDecodePublicKey := fun _ => Except.error "bad pem"
    createCertificate := fun _ _ _ _ => Except.error "create failed" }

/-- A concrete CA document with generated material and a partial dn-scope. -/
def sampleCA : CAData :=
  { scope := "pki.io", version := 1, docType := "ca-document", options := ""
    body := { id := "i1", name := "Root", certificate := "CERTPEM"
              privateKey := "KEYPEM"
              dnScope := ⟨"UK", "Org", "", "", "", "", ""⟩ } }

/-- A concrete child CA with its own partially filled dn-scope. -/
def childCA : CAData :=
  { sampleCA with body := { sampleCA.body with
      id := "i2", name := "Child", certificate := "", privateKey := ""
      dnScope := ⟨"FR", "", "Unit", "", "", "", ""⟩ } }

/-- A concrete CA whose stored certificate and private-key PEM are not
decodable by any of the concrete environments. -/
def badCA : CAData :=
  { sampleCA with body := { sampleCA.body with
      certificate := "garbage", privateKey := "garbage" } }

/-- A concrete CSR with a decodable public key. -/
def sampleCSR : CSRData :=
  { scope := "pki.io", version := 1, docType := "csr-document", options := ""
    body := { id := "csr1", name := "leaf1", publicKey := "PUBPEM" } }

/-- The certificate document `CA.Sign` produces from `sampleCSR` under
`envOk`. -/
def signedCert : CertificateData :=
  { scope := "pki.io", version := 1, docType := "certificate-document", options := ""
    body := { id := "csr1", name := "leaf1"
              certificate := "-----BEGIN CERTIFICATE-----\nQUJD\n-----END CERTIFICATE-----\n"
              privateKey := "" } }

/-- A hexadecimal digit is not the dash separator. -/
lemma isHexDigit_ne_dash {c : Char} (h : isHexDigit c = true) : ¬ c = '-' := by
  intro hc
  subst hc
  exact absurd h (by decide)

/-- A hexadecimal digit is not the plus sign. -/
lemma isHexDigit_ne_plus {c : Char} (h : isHexDigit c = true) : ¬ c = '+' := by
  intro hc
  subst hc
  exact absurd h (by decide)

/-- Unfolding of the identifier-format predicate. -/
lemma identifier_parts {s : String} (h : isTimeOrderedIdentifier s = true) :
    (∀ c ∈ s.data, (isHexDigit c || c = '-') = true) ∧ ∃ c ∈ s.data, isHexDigit c = true := by
  rw [isTimeOrderedIdentifier, Bool.and_eq_true, List.all_eq_true, List.any_eq_true] at h
  exact h

/-- Stripping the dashes from a well-formed identifier leaves only
hexadecimal digits. -/
lemma identifier_filter_hex {s : String} (h : isTimeOrderedIdentifier s = true) :
    ∀ c ∈ s.data.filter (fun c => c ≠ '-'), isHexDigit c = true := by
  intro c hc
  rw [List.mem_filter] at hc
  have hor := (identifier_parts h).1 c hc.1
  rw [Bool.or_eq_true] at hor
  rcases hor with hh | hd
  · exact hh
  · exact absurd (of_decide_eq_true hd) (of_decide_eq_true hc.2)

/-- Stripping the dashes from a well-formed identifier leaves a non-empty
string. -/
lemma identifier_filter_ne_nil {s : String} (h : isTimeOrderedIdentifier s = true) :
    s.data.filter (fun c => c ≠ '-') ≠ [] := by
  rcases (identifier_parts h).2 with ⟨c, hmem, hhex⟩
  intro hnil
  have hcf : c ∈ s.data.filter (fun c => c ≠ '-') := by
    rw [List.mem_filter]
    exact ⟨hmem, decide_eq_true (isHexDigit_ne_dash hhex)⟩
  rw [hnil] at hcf
  exact absurd hcf (List.not_mem_nil c)

/-- On a well-formed time-ordered identifier, `NewSerial` succeeds and
returns the value of the dash-stripped string read as hexadecimal. -/
lemma newSerial_ok_of_identifier (s : String) (h : isTimeOrderedIdentifier s = true) :
    NewSerial s = Except.ok ((hexNat (s.data.filter (fun c => c ≠ '-')) : Int)) := by
  have hhex := identifier_filter_hex h
  have hne := identifier_filter_ne_nil h
  cases hcs : s.data.filter (fun c => c ≠ '-') with
  | nil => exact absurd hcs hne
  | cons c rest =>
    have hc : isHexDigit c = true := hhex c (by rw [hcs]; exact List.mem_cons_self c rest)
    have htw : (c :: rest).takeWhile isHexDigit = c :: rest := by
      rw [List.takeWhile_eq_self_iff]
      intro x hx
      exact hhex x (by rw [hcs]; exact hx)
    simp only [NewSerial, removeDashes, sscanHexBigInt, hcs]
    rw [if_neg (isHexDigit_ne_dash hc), if_neg (isHexDigit_ne_plus hc), htw]

/-- When the dash-stripped string holds no hexadecimal digit at all, the
embedded scan fails and `NewSerial` reports the scan error. -/
lemma newSerial_error_of_no_hex (s : String)
    (h : (s.data.filter (fun c => c ≠ '-')).all (fun c => !(isHexDigit c)) = true) :
    NewSerial s = Except.error "Could not scan UUID to int: syntax error scanning number" := by
  rw [List.all_eq_true] at h
  cases hcs : s.data.filter (fun c => c ≠ '-') with
  | nil => simp only [NewSerial, removeDashes, sscanHexBigInt, hcs]
  | cons c rest =>
    have hmem : c ∈ s.data.filter (fun c => c ≠ '-') := by
      rw [hcs]; exact List.mem_cons_self c rest
    have hcnh : isHexDigit c = false := by
      have hb := h c hmem
      simpa using hb
    have hcd : ¬ c = '-' := by
      rw [List.mem_filter] at hmem
      exact of_decide_eq_true hmem.2
    have htwr : rest.takeWhile isHexDigit = [] := by
      cases hr : rest with
      | nil => rfl
      | cons d ds =>
        have hd : isHexDigit d = false := by
          have hb := h d (by
            rw [hcs, hr]
            exact List.mem_cons_of_mem c (List.mem_cons_self d ds))
          simpa using hb
        simp [List.takeWhile_cons, hd]
    by_cases hcp : c = '+'
    · subst hcp
      simp only [NewSerial, removeDashes, sscanHexBigInt, hcs]
      simp [htwr]
    · simp only [NewSerial, removeDashes, sscanHexBigInt, hcs]
      rw [if_neg hcd, if_neg hcp, List.takeWhile_cons, hcnh]
      simp

/-- Exhaustive outcome analysis of `CA.GenerateSub`: either it fails and
the state is exactly the dn-inherited receiver, or it succeeds and
additionally writes id, certificate and private-key. -/
lemma generateSub_cases (env : CryptoEnv) (ca : CAData) (pa : CAParentArg)
    (nb na : Int) :
    (∃ e, CA.GenerateSub env ca pa nb na = (applyDNInherit ca pa, some e)) ∨
    (∃ (serial : Int) (der : List Nat),
      CA.GenerateSub env ca pa nb na =
        ({ applyDNInherit ca pa with body := { (applyDNInherit ca pa).body with
            id := toString serial
            certificate := PemEncodeX509CertificateDER env der
            privateKey := env.pemEncodeRSAPrivate env.generateRSAKey } }, none)) := by
  unfold CA.GenerateSub
  rcases hs : NewSerial env.timeOrderedUUID with e | serial
  · left; exact ⟨_, rfl⟩
  · rcases hp : caParentAndKey env
        (caTemplate serial
          (subjectFromDNScope (applyDNInherit ca pa).body.dnScope
            (applyDNInherit ca pa).body.name) nb na)
        env.generateRSAKey pa with e | pk
    · left; exact ⟨e, by simp only [hp]⟩
    · rcases hc : env.createCertificate
          (caTemplate serial
            (subjectFromDNScope (applyDNInherit ca pa).body.dnScope
              (applyDNInherit ca pa).body.name) nb na)
          (some pk.1) env.generateRSAKey.publicKey (some pk.2) with e | der
      · left; exact ⟨"Could not create certificate: " ++ e, by simp only [hp, hc]⟩
      · right; exact ⟨serial, der, by simp only [hp, hc]⟩

/-- Exhaustive outcome analysis of `Certificate.Generate`: either it fails
and the state is untouched, or it succeeds and writes exactly the
certificate and private-key fields. -/
lemma certificateGenerate_cases (env : CryptoEnv) (c : CertificateData)
    (pa : CertParentArg) (nb na : Int) :
    (∃ e, Certificate.Generate env c pa nb na = (c, some e)) ∨
    (∃ der : List Nat,
      Certificate.Generate env c pa nb na =
        ({ c with body := { c.body with
            certificate := PemEncodeX509CertificateDER env der
            privateKey := env.pemEncodeRSAPrivate env.generateRSAKey } }, none)) := by
  unfold Certificate.Generate
  rcases hp : certParentAndKey env (certGenTemplate nb na) env.generateRSAKey pa
      with e | pk
  · left; exact ⟨e, by simp only [hp]⟩
  · rcases hc : env.createCertificate (certGenTemplate nb na) (some pk.1)
        env.generateRSAKey.publicKey (some pk.2) with e | der
    · left; exact ⟨"Could not create certificate: " ++ e, by simp only [hp, hc]⟩
    · right; exact ⟨der, by simp only [hp, hc]⟩

/-- `CA.Sign` returns the receiver and the CSR unchanged on every path. -/
lemma sign_receiver_unchanged (env : CryptoEnv) (ca : CAData) (csr : CSRData) :
    (CA.Sign env ca csr).2.1 = ca ∧ (CA.Sign env ca csr).2.2 = csr := by
  unfold CA.Sign
  rcases hs : NewSerial env.timeOrderedUUID with e | serial
  · exact ⟨rfl, rfl⟩
  · rcases hk : CSR.PublicKey env csr with e | pub
    · simp [hk]
    · rcases hc : env.createCertificate
          (signTemplate env serial (subjectFromDNScope ca.body.dnScope csr.body.name))
          (CA.Certificate env ca).toOption pub (CA.PrivateKey env ca).toOption
          with e | der
      · simp [hk, hc]
      · simp [hk, hc]

/-- The shape of every certificate document that `CA.Sign` can return:
the default document with id and name copied from the CSR and the issued
certificate PEM stored. -/
lemma sign_success_shape (env : CryptoEnv) (ca : CAData) (csr : CSRData)
    (cert : CertificateData) (h : (CA.Sign env ca csr).1 = Except.ok cert) :
    ∃ der : List Nat,
      cert = { certificateDefaultData with body := { certificateDefaultData.body with
        id := csr.body.id
        name := csr.body.name
        certificate := PemEncodeX509CertificateDER env der } } := by
  unfold CA.Sign at h
  rcases hs : NewSerial env.timeOrderedUUID with e | serial <;> rw [hs] at h
  · exact absurd h (by simp)
  · rcases hk : CSR.PublicKey env csr with e | pub <;> simp only [hk] at h
    · exact absurd h (by simp)
    · rcases hc : env.createCertificate
          (signTemplate env serial (subjectFromDNScope ca.body.dnScope csr.body.name))
          (CA.Certificate env ca).toOption pub (CA.PrivateKey env ca).toOption
          with e | der <;> simp only [hc] at h
      · exact absurd h (by simp)
      · exact ⟨der, by injection h with h2; rw [← h2]⟩

/-- The PEM armor makes the encoded certificate a non-empty string
whatever the base64 body. -/
lemma pemEncode_ne_empty (env : CryptoEnv) (der : List Nat) :
    PemEncodeX509CertificateDER env der ≠ "" := by
  unfold PemEncodeX509CertificateDER
  intro hempty
  have hlen : ("-----BEGIN CERTIFICATE-----\n" ++ env.base64Encode der ++
      "\n-----END CERTIFICATE-----\n").length = 0 := by rw [hempty]; rfl
  rw [String.length_append, String.length_append] at hlen
  have h1 : 0 < ("-----BEGIN CERTIFICATE-----\n" : String).length := by decide
  omega

/-- C1: the claim states that a CA whose stored certificate or private-key
PEM cannot be decoded makes `CA.Sign` fail with a signing-key error before
any certificate is created.  The source instead discards both decode
errors (`parent, _ := ca.Certificate()` and `signingKey, _ :=
ca.PrivateKey()`, src/x509/ca.go lines 370 and 375) and proceeds to
`x509.CreateCertificate` with nil material: at the concrete failing input
`badCA`, whose stored PEM both decoders reject, `Sign` does not report the
decode failure and even returns a certificate when the creation
collaborator accepts the nil material. -/
theorem sign_ignores_own_decode_failures :
    CA.Certificate envOk badCA = Except.error "not a certificate" ∧
    CA.PrivateKey envOk badCA =
      Except.error "Could not decode rsa private key: not a key" ∧
    (CA.Sign envOk badCA sampleCSR).1 = Except.ok signedCert :=
  ⟨rfl, rfl, rfl⟩

/-- C2: for a `*CA` parent, `GenerateSub` applies the override-if-present
rule independently to each of the seven dn-scope fields of the resulting
state: where the parent's value is non-empty it replaces the child's value
(even a non-empty one), and where the parent's value is empty the child's
value is unchanged. -/
theorem generateSub_dn_scope_override (env : CryptoEnv) (ca p : CAData)
    (nb na : Int) :
    ((CA.GenerateSub env ca (CAParentArg.caParent p) nb na).1.body.dnScope.country
      = if p.body.dnScope.country ≠ "" then p.body.dnScope.country
        else ca.body.dnScope.country) ∧
    ((CA.GenerateSub env ca (CAParentArg.caParent p) nb na).1.body.dnScope.organization
      = if p.body.dnScope.organization ≠ "" then p.body.dnScope.organization
        else ca.body.dnScope.organization) ∧
    ((CA.GenerateSub env ca (CAParentArg.caParent p) nb na).1.body.dnScope.organizationalUnit
      = if p.body.dnScope.organizationalUnit ≠ "" then p.body.dnScope.organizationalUnit
        else ca.body.dnScope.organizationalUnit) ∧
    ((CA.GenerateSub env ca (CAParentArg.caParent p) nb na).1.body.dnScope.locality
      = if p.body.dnScope.locality ≠ "" then p.body.dnScope.locality
        else ca.body.dnScope.locality) ∧
    ((CA.GenerateSub env ca (CAParentArg.caParent p) nb na).1.body.dnScope.province
      = if p.body.dnScope.province ≠ "" then p.body.dnScope.province
        else ca.body.dnScope.province) ∧
    ((CA.GenerateSub env ca (CAParentArg.caParent p) nb na).1.body.dnScope.streetAddress
      = if p.body.dnScope.streetAddress ≠ "" then p.body.dnScope.streetAddress
        else ca.body.dnScope.streetAddress) ∧
    ((CA.GenerateSub env ca (CAParentArg.caParent p) nb na).1.body.dnScope.postalCode
      = if p.body.dnScope.postalCode ≠ "" then p.body.dnScope.postalCode
        else ca.body.dnScope.postalCode) := by
  rcases generateSub_cases env ca (CAParentArg.caParent p) nb na with
    ⟨e, heq⟩ | ⟨serial, der, heq⟩ <;>
    rw [heq] <;> simp [applyDNInherit, dnScopeInherit]

/-- C3: when `CA.Sign` succeeds, the returned certificate document carries
the CSR's id and name, a non-empty PEM certificate and an empty
private-key field, and both the CA's and the CSR's data are returned
unchanged. -/
theorem sign_success_certificate_fields (env : CryptoEnv) (ca : CAData)
    (csr : CSRData) (cert : CertificateData)
    (h : (CA.Sign env ca csr).1 = Except.ok cert) :
    cert.body.id = csr.body.id ∧ cert.body.name = csr.body.name ∧
    cert.body.certificate ≠ "" ∧ cert.body.privateKey = "" ∧
    (CA.Sign env ca csr).2.1 = ca ∧ (CA.Sign env ca csr).2.2 = csr := by
  obtain ⟨der, hcert⟩ := sign_success_shape env ca csr cert h
  subst hcert
  exact ⟨rfl, rfl, pemEncode_ne_empty env der, rfl,
    (sign_receiver_unchanged env ca csr).1, (sign_receiver_unchanged env ca csr).2⟩

/-- Witness for C3: the theorem applied to the concrete succeeding call
`CA.Sign envOk sampleCA sampleCSR`, whose result is `signedCert`. -/
theorem sign_success_certificate_fields_witness :
    signedCert.body.id = sampleCSR.body.id ∧
    signedCert.body.name = sampleCSR.body.name ∧
    signedCert.body.certificate ≠ "" ∧ signedCert.body.privateKey = "" ∧
    (CA.Sign envOk sampleCA sampleCSR).2.1 = sampleCA ∧
    (CA.Sign envOk sampleCA sampleCSR).2.2 = sampleCSR :=
  sign_success_certificate_fields envOk sampleCA sampleCSR signedCert (by rfl)

/-- C4: whenever a generation method (`GenerateSub`, `GenerateRoot`,
`Certificate.Generate`, `CA.Sign`) returns an error, the receiving
document's certificate and private-key fields still hold their values
from before the call: those fields are written only after every fallible
step has succeeded. -/
theorem generation_all_or_nothing :
    (∀ (env : CryptoEnv) (ca : CAData) (pa : CAParentArg) (nb na : Int) (e : String),
      (CA.GenerateSub env ca pa nb na).2 = some e →
      (CA.GenerateSub env ca pa nb na).1.body.certificate = ca.body.certificate ∧
      (CA.GenerateSub env ca pa nb na).1.body.privateKey = ca.body.privateKey) ∧
    (∀ (env : CryptoEnv) (ca : CAData) (nb na : Int) (e : String),
      (CA.GenerateRoot env ca nb na).2 = some e →
      (CA.GenerateRoot env ca nb na).1.body.certificate = ca.body.certificate ∧
      (CA.GenerateRoot env ca nb na).1.body.privateKey = ca.body.privateKey) ∧
    (∀ (env : CryptoEnv) (c : CertificateData) (pa : CertParentArg) (nb na : Int)
      (e : String),
      (Certificate.Generate env c pa nb na).2 = some e →
      (Certificate.Generate env c pa nb na).1.body.certificate = c.body.certificate ∧
      (Certificate.Generate env c pa nb na).1.body.privateKey = c.body.privateKey) ∧
    (∀ (env : CryptoEnv) (ca : CAData) (csr : CSRData) (e : String),
      (CA.Sign env ca csr).1 = Except.error e →
      (CA.Sign env ca csr).2.1.body.certificate = ca.body.certificate ∧
      (CA.Sign env ca csr).2.1.body.privateKey = ca.body.privateKey) := by
  refine ⟨?_, ?_, ?_, ?_⟩
  · intro env ca pa nb na e h
    rcases generateSub_cases env ca pa nb na with ⟨e2, heq⟩ | ⟨serial, der, heq⟩
    · rw [heq]
      cases pa <;> simp [applyDNInherit]
    · rw [heq] at h
      simp at h
  · intro env ca nb na e h
    rcases generateSub_cases env ca CAParentArg.noParent nb na with
      ⟨e2, heq⟩ | ⟨serial, der, heq⟩
    · rw [CA.GenerateRoot, heq]
      simp [applyDNInherit]
    · rw [CA.GenerateRoot, heq] at h
      simp at h
  · intro env c pa nb na e h
    rcases certificateGenerate_cases env c pa nb na with ⟨e2, heq⟩ | ⟨der, heq⟩
    · rw [heq]
      exact ⟨rfl, rfl⟩
    · rw [heq] at h
      simp at h
  · intro env ca csr e h
    rw [(sign_receiver_unchanged env ca csr).1]
    exact ⟨rfl, rfl⟩

/-- Witness for C4: the theorem applied to concrete failing calls of all
four generation methods under `envFail`. -/
theorem generation_all_or_nothing_witness :
    ((CA.GenerateSub envFail childCA (CAParentArg.caParent sampleCA) 0 1).1.body.certificate
        = childCA.body.certificate ∧
      (CA.GenerateSub envFail childCA (CAParentArg.caParent sampleCA) 0 1).1.body.privateKey
        = childCA.body.privateKey) ∧
    ((CA.GenerateRoot envFail childCA 0 1).1.body.certificate = childCA.body.certificate ∧
      (CA.GenerateRoot envFail childCA 0 1).1.body.privateKey = childCA.body.privateKey) ∧
    ((Certificate.Generate envFail certificateDefaultData (CertParentArg.otherType "int")
          0 1).1.body.certificate = certificateDefaultData.body.certificate ∧
      (Certificate.Generate envFail certificateDefaultData (CertParentArg.otherType "int")
          0 1).1.body.privateKey = certificateDefaultData.body.privateKey) ∧
    ((CA.Sign envFail sampleCA sampleCSR).2.1.body.certificate = sampleCA.body.certificate ∧
      (CA.Sign envFail sampleCA sampleCSR).2.1.body.privateKey = sampleCA.body.privateKey) :=
  ⟨generation_all_or_nothing.1 envFail childCA (CAParentArg.caParent sampleCA) 0 1
      "Could not get certificate: bad pem" (by rfl),
   generation_all_or_nothing.2.1 envFail childCA 0 1
      "Could not create certificate: create failed" (by rfl),
   generation_all_or_nothing.2.2.1 envFail certificateDefaultData
      (CertParentArg.otherType "int") 0 1 "Invalid parent type: int" (by rfl),
   generation_all_or_nothing.2.2.2 envFail sampleCA sampleCSR
      "Could not get public key from CSR: bad pem" (by rfl)⟩

/-- C5: a parent argument that is neither absent nor of the expected
entity type makes `CA.GenerateSub` and `Certificate.Generate` fail with
the invalid-parent-type error and leave the receiving document completely
unchanged.  For `GenerateSub` the serial is derived before the parent
switch, so the statement assumes the identifier source honours its
contract (spec §6) and the serial derivation succeeds;
`Certificate.Generate` has no fallible step before the switch. -/
theorem invalid_parent_type_rejected :
    (∀ (env : CryptoEnv) (ca : CAData) (t : String) (nb na : Int),
      isTimeOrderedIdentifier env.timeOrderedUUID = true →
      CA.GenerateSub env ca (CAParentArg.otherType t) nb na =
        (ca, some ("Invalid parent type: " ++ t))) ∧
    (∀ (env : CryptoEnv) (c : CertificateData) (t : String) (nb na : Int),
      Certificate.Generate env c (CertParentArg.otherType t) nb na =
        (c, some ("Invalid parent type: " ++ t))) := by
  constructor
  · intro env ca t nb na h
    have hs := newSerial_ok_of_identifier env.timeOrderedUUID h
    unfold CA.GenerateSub
    rw [hs]
    simp [caParentAndKey, applyDNInherit]
  · intro env c t nb na
    unfold Certificate.Generate
    simp [certParentAndKey]

/-- Witness for C5: the theorem applied to concrete calls with a parent of
dynamic type `int`. -/
theorem invalid_parent_type_rejected_witness :
    CA.GenerateSub envOk sampleCA (CAParentArg.otherType "int") 0 1 =
      (sampleCA, some "Invalid parent type: int") ∧
    Certificate.Generate envOk certificateDefaultData (CertParentArg.otherType "int") 0 1 =
      (certificateDefaultData, some "Invalid parent type: int") :=
  ⟨invalid_parent_type_rejected.1 envOk sampleCA "int" 0 1 (by rfl),
   invalid_parent_type_rejected.2 envOk certificateDefaultData "int" 0 1⟩

/-- C6: `GenerateRoot` is observationally equivalent to `GenerateSub` with
an absent parent and the same validity window: the source delegates
directly, so the two calls agree on the error and on the final state. -/
theorem generateRoot_eq_generateSub_noParent (env : CryptoEnv) (ca : CAData)
    (nb na : Int) :
    CA.GenerateRoot env ca nb na = CA.GenerateSub env ca CAParentArg.noParent nb na :=
  rfl

/-- C7: serializing any CA document data with `Dump` and loading the
result with `Load` into a fresh CA succeeds (the dump validates against
the CA schema) and reproduces data equal to the original. -/
theorem ca_dump_load_roundtrip (d : CAData) : CALoad (CADump d) = Except.ok d :=
  rfl

/-- C8: `NewSerial` strips the dash separators from the identifier and
parses the remainder as a hexadecimal arbitrary-precision integer,
returning that integer on every well-formed time-ordered identifier; when
the separator-stripped string holds no hexadecimal digit it returns the
serial-derivation error and no integer. -/
theorem newSerial_strips_separators_and_parses_hex :
    (∀ s : String, isTimeOrderedIdentifier s = true →
      NewSerial s = Except.ok ((hexNat (s.data.filter (fun c => c ≠ '-')) : Int))) ∧
    (∀ s : String,
      (s.data.filter (fun c => c ≠ '-')).all (fun c => !(isHexDigit c)) = true →
      NewSerial s =
        Except.error "Could not scan UUID to int: syntax error scanning number") :=
  ⟨newSerial_ok_of_identifier, newSerial_error_of_no_hex⟩

/-- Witness for C8: the theorem applied to a concrete well-formed
identifier and to a concrete unparseable string. -/
theorem newSerial_strips_separators_and_parses_hex_witness :
    NewSerial "0123-4567-89ab-cdef" =
      Except.ok ((hexNat ("0123-4567-89ab-cdef".data.filter (fun c => c ≠ '-')) : Int)) ∧
    NewSerial "zz" =
      Except.error "Could not scan UUID to int: syntax error scanning number" :=
  ⟨newSerial_strips_separators_and_parses_hex.1 "0123-4567-89ab-cdef" (by rfl),
   newSerial_strips_separators_and_parses_hex.2 "zz" (by rfl)⟩

/-- C9: the dn-scope override runs before any fallible step of
`GenerateSub`, so when the call fails with a `*CA` parent the receiver's
state is exactly the original with the inherited dn-scope: the mutation is
not rolled back on error. -/
theorem generateSub_dn_mutation_survives_error (env : CryptoEnv) (ca p : CAData)
    (nb na : Int) (e : String)
    (h : (CA.GenerateSub env ca (CAParentArg.caParent p) nb na).2 = some e) :
    (CA.GenerateSub env ca (CAParentArg.caParent p) nb na).1 =
      { ca with body := { ca.body with
          dnScope := dnScopeInherit ca.body.dnScope p.body.dnScope } } := by
  rcases generateSub_cases env ca (CAParentArg.caParent p) nb na with
    ⟨e2, heq⟩ | ⟨serial, der, heq⟩
  · rw [heq]
    rfl
  · rw [heq] at h
    simp at h

/-- Witness for C9: the theorem applied to a concrete failing call (the
parent's certificate does not decode under `envFail`). -/
theorem generateSub_dn_mutation_survives_error_witness :
    (CA.GenerateSub envFail childCA (CAParentArg.caParent sampleCA) 0 1).1 =
      { childCA with body := { childCA.body with
          dnScope := dnScopeInherit childCA.body.dnScope sampleCA.body.dnScope } } :=
  generateSub_dn_mutation_survives_error envFail childCA sampleCA 0 1
    "Could not get certificate: bad pem" (by rfl)

/-- C10: `Certificate.Generate` uses the fixed serial 1234 and the fixed
subject (country Earth, organization Mother Nature), never consults the
time-ordered identifier source (its result does not depend on it), and on
success writes only the certificate and private-key fields, leaving id and
name unchanged. -/
theorem certificate_generate_fixed_serial_and_subject :
    (∀ nb na : Int, (certGenTemplate nb na).serialNumber = 1234 ∧
      (certGenTemplate nb na).subject = certGenSubject) ∧
    certGenSubject.country = ["Earth"] ∧
    certGenSubject.organization = ["Mother Nature"] ∧
    (∀ (env : CryptoEnv) (u : String) (c : CertificateData) (pa : CertParentArg)
      (nb na : Int),
      Certificate.Generate { env with timeOrderedUUID := u } c pa nb na =
        Certificate.Generate env c pa nb na) ∧
    (∀ (env : CryptoEnv) (c : CertificateData) (pa : CertParentArg) (nb na : Int),
      (Certificate.Generate env c pa nb na).2 = none →
      (Certificate.Generate env c pa nb na).1.body.id = c.body.id ∧
      (Certificate.Generate env c pa nb na).1.body.name = c.body.name) := by
  refine ⟨fun nb na => ⟨rfl, rfl⟩, rfl, rfl, fun env u c pa nb na => rfl, ?_⟩
  intro env c pa nb na h
  rcases certificateGenerate_cases env c pa nb na with ⟨e2, heq⟩ | ⟨der, heq⟩
  · rw [heq] at h
    simp at h
  · rw [heq]
    exact ⟨rfl, rfl⟩

/-- Witness for C10: the success conjunct applied to a concrete
succeeding self-signed call. -/
theorem certificate_generate_fixed_serial_and_subject_witness :
    (Certificate.Generate envOk certificateDefaultData CertParentArg.noParent 0 1).1.body.id
      = certificateDefaultData.body.id ∧
    (Certificate.Generate envOk certificateDefaultData CertParentArg.noParent 0 1).1.body.name
      = certificateDefaultData.body.name :=
  certificate_generate_fixed_serial_and_subject.2.2.2.2 envOk certificateDefaultData
    CertParentArg.noParent 0 1 (by rfl)
